import Mathlib

/-!
Verification development for a small MCP adapter around the CDP
command-line audio toolsuite (source: CDP_MCP_v7.py).

The Python module is boundary glue: it locates executables under a
configured directory, runs them as subprocesses, and post-processes the
observed (exit code, stdout, stderr) triple.  We embed the pure
decision logic of each boundary operation as Lean functions, and model
the operating-system effects (file existence, directory listings,
subprocess outcomes) as explicit environment records supplied to those
functions.  A few string primitives (`startswith`, `endswith`, `in`,
`strip`, `split`, `lower`) are re-implemented structurally over
character lists so that all definitions evaluate by kernel reduction.
-/

/-- Python `pat.startswith` test as a structural character-list scan:
`charListBeginsWith pat l` holds when `pat` is an initial segment of
`l`. -/
def charListBeginsWith : List Char → List Char → Bool
  | [], _ => true
  | _ :: _, [] => false
  | p :: ps, c :: cs => p == c && charListBeginsWith ps cs

/-- Python `s.startswith(pat)`. -/
def strStartsWith (s pat : String) : Bool :=
  charListBeginsWith pat.data s.data

/-- Python `s.endswith(pat)`. -/
def strEndsWith (s pat : String) : Bool :=
  charListBeginsWith pat.data.reverse s.data.reverse

/-- Occurrence of `pat` as a contiguous sub-list of `l`. -/
def charListContainsSub : List Char → List Char → Bool
  | [], pat => charListBeginsWith pat []
  | l@(_ :: tl), pat => charListBeginsWith pat l || charListContainsSub tl pat

/-- Python `pat in s` (substring containment). -/
def strContains (s pat : String) : Bool :=
  charListContainsSub s.data pat.data

/-- Python `c in s` for a single character. -/
def strHasChar (s : String) (c : Char) : Bool :=
  s.data.contains c

/-- Drop leading whitespace from a character list. -/
def dropLeadingWs : List Char → List Char
  | [] => []
  | c :: cs => if c.isWhitespace then dropLeadingWs cs else c :: cs

/-- Python `s.strip()`. -/
def strTrim (s : String) : String :=
  ⟨(dropLeadingWs (dropLeadingWs s.data).reverse).reverse⟩

/-- Python `s.lower()`. -/
def strToLower (s : String) : String :=
  ⟨s.data.map Char.toLower⟩

/-- Python `s.split(c)` for a one-character separator: the list of
chunks between occurrences of `c` (always non-empty). -/
def splitOnChar (c : Char) : List Char → List (List Char)
  | [] => [[]]
  | x :: xs =>
    match splitOnChar c xs with
    | [] => if x == c then [[], []] else [[x]]
    | h :: t => if x == c then [] :: h :: t else (x :: h) :: t

/-- Default install directory for the CDP programs (`CDP_PATH`). -/
def CDP_PATH : String := "/Users/davidpiazza/cdpr8/_cdp/_cdprogs"

/-- Scratch directory used as the subprocess working directory (`TEMP_DIR`). -/
def TEMP_DIR : String := "/tmp/cdp_mcp"

/-- Outcome of one subprocess invocation, as seen by the Python
`try`/`except` around `subprocess.run`: a normal completion with exit
code and captured output, a `TimeoutExpired`, or any other exception. -/
inductive ProcOutcome where
  | completed (returncode : Int) (stdout stderr : String)
  | timedOut
  | excFailed (msg : String)
deriving DecidableEq, Repr

/-- The not-found message produced by both runner helpers when
`CDP_PATH/program` does not exist. -/
def notfound_message (program : String) : String :=
  "Program \x27" ++ program ++ "\x27 not found at " ++ CDP_PATH ++ "/" ++ program

/-- Environment for `run_cdp_command` / `execute_cdp`: whether
`CDP_PATH/program` exists, the host-architecture flag, the
file-existence oracle for `Path(p).exists()`, and the subprocess
oracle returning the observed (returncode, stdout, stderr) triple
(an execution exception is the triple the `except` branch builds). -/
structure Env where
  programExists : String → Bool
  isAppleSilicon : Bool
  fileExists : String → Bool
  run : List String → Int × String × String

/-- `run_cdp_command`: resolve the program under `CDP_PATH`, prepend the
Rosetta invocation on Apple silicon, and run the subprocess. -/
def run_cdp_command (env : Env) (command : List String) : Int × String × String :=
  match command with
  | [] => (-1, "", "Empty command array")
  | program :: rest =>
    if env.programExists program then
      let cmdPath := CDP_PATH ++ "/" ++ program
      let full_cmd :=
        if env.isAppleSilicon then ["arch", "-x86_64", cmdPath] ++ rest
        else [cmdPath] ++ rest
      env.run full_cmd
    else
      (-1, "", notfound_message program)

/-- The success heuristic of `execute_cdp`: exit code zero, or exit code
one with non-empty stdout and empty stderr, or (for commands with more
than two elements) the last argument existing on disk. -/
def success_of (command : List String) (exit_code : Int) (stdout stderr : String)
    (fileExists : String → Bool) : Bool :=
  (exit_code == 0) ||
  ((exit_code == 1) && !(stdout == "") && (stderr == "")) ||
  (decide (2 < command.length) && fileExists (command.getLastD ""))

/-- The structured result of `execute_cdp`; absent dictionary keys are
`none`. -/
structure ExecResult where
  status : String
  error : Option String := none
  exit_code : Option Int := none
  command : Option String := none
  stdout : Option String := none
  stderr : Option String := none
  output_file : Option String := none
  output_exists : Option Bool := none
deriving DecidableEq, Repr

/-- `execute_cdp`: run the command, infer success, and report the
optional output-file keys when the command looks like a file
operation. -/
def execute_cdp (env : Env) (command : List String) : ExecResult :=
  if command.isEmpty then
    { status := "failed", error := some "Empty command array provided" }
  else
    let r := run_cdp_command env command
    let success := success_of command r.1 r.2.1 r.2.2 env.fileExists
    let result : ExecResult :=
      { status := if success then "success" else "failed",
        exit_code := some r.1,
        command := some (String.intercalate " " command),
        stdout := some r.2.1,
        stderr := some r.2.2 }
    if 2 < command.length then
      let possible_output := command.getLastD ""
      if !(strStartsWith possible_output "-") && strHasChar possible_output '.' then
        let r1 := { result with output_file := some possible_output }
        if env.fileExists possible_output then { r1 with output_exists := some true }
        else r1
      else result
    else result

/-- Fixed timeout (seconds) for the usage probe (`timeout=5`). -/
def usage_timeout : Nat := 5

/-- The dedicated message reported when the usage probe times out. -/
def timeout_message : String :=
  "Command timed out - program may be waiting for input"

/-- Environment for `run_cdp_for_usage`: program existence, the
host-architecture flag, and a subprocess oracle that also sees the
timeout bound passed to `subprocess.run`. -/
structure UsageEnv where
  programExists : String → Bool
  isAppleSilicon : Bool
  run : List String → Nat → ProcOutcome

/-- The argument vector the usage probe passes to `subprocess.run`
(program path, optional subprogram, optional Rosetta invocation). -/
def build_usage_cmd (isAS : Bool) (program : String) (subprogram : Option String) :
    List String :=
  let args := match subprogram with
    | some s => if s == "" then [] else [s]
    | none => []
  let cmdPath := CDP_PATH ++ "/" ++ program
  if isAS then ["arch", "-x86_64", cmdPath] ++ args else [cmdPath] ++ args

/-- `run_cdp_for_usage`: run the program with no real arguments under a
5-second timeout; on completion report stdout when non-empty and stderr
otherwise as the usage text; timeouts and exceptions become the triples
built by the corresponding `except` branches. -/
def run_cdp_for_usage (env : UsageEnv) (program : String) (subprogram : Option String) :
    Int × String × String :=
  if env.programExists program then
    match env.run (build_usage_cmd env.isAppleSilicon program subprogram) usage_timeout with
    | ProcOutcome.completed code out err => (code, if out == "" then err else out, err)
    | ProcOutcome.timedOut => (-1, "", timeout_message)
    | ProcOutcome.excFailed msg => (-1, "", "Failed to execute: " ++ msg)
  else
    (-1, "", notfound_message program)

/-- The response dictionary of `get_cdp_usage`; hint keys absent from
the dictionary are `none`. -/
structure UsageResponse where
  program : String
  subprogram : String
  usage_text : String
  exit_code : Int
  has_usage : Option Bool := none
  has_modes : Option Bool := none
  has_flags : Option Bool := none
  note : Option String := none
deriving DecidableEq, Repr

/-- `get_cdp_usage`: capture the probe output and add pattern-based
hints when any output was produced. -/
def get_cdp_usage (env : UsageEnv) (program : String) (subprogram : Option String) :
    UsageResponse :=
  let r := run_cdp_for_usage env program subprogram
  let exit_code := r.1
  let output := r.2.1
  let stderr := r.2.2
  let response : UsageResponse :=
    { program := program,
      subprogram := match subprogram with
        | some s => if s == "" then "none" else s
        | none => "none",
      usage_text := if output == "" then stderr else output,
      exit_code := exit_code }
  if output == "" && stderr == "" then response
  else
    let text := if output == "" then stderr else output
    let r1 :=
      if strContains text "USAGE:" || strContains text "Usage:" then
        { response with has_usage := some true }
      else response
    let r2 :=
      if strContains text "MODES:" || strContains text "Modes:" then
        { r1 with has_modes := some true }
      else r1
    let r3 :=
      if strContains text "-" || strContains text "FLAGS:" || strContains text "Options:" then
        { r2 with has_flags := some true }
      else r2
    if strContains (strToLower text) (program ++ " " ++ program) then
      { r3 with note := some ("This program uses double syntax: " ++ program ++ " " ++ program) }
    else r3

/-- One entry of the installation directory listing, as the scan sees
it: name, whether it is a regular file, and whether it is executable. -/
structure DirEntry where
  name : String
  isFile : Bool
  executable : Bool
deriving DecidableEq, Repr

/-- Environment for `scan_cdp_programs`: whether the installation
directory exists, whether iterating it raised an exception, and its
entries. -/
structure ScanEnv where
  dirExists : Bool
  scanError : Option String
  entries : List DirEntry

/-- The static category table `CDP_CATEGORIES` (insertion order kept). -/
def CDP_CATEGORIES : List (String × List String) :=
  [("Spectral Processing",
     ["blur", "clean", "combine", "cross", "focus", "formants",
      "gate", "get", "hilite", "morph", "pitch", "spec", "strange", "stretch"]),
   ("Time Domain",
     ["modify", "distort", "envel", "extend", "filter", "grain",
      "sfedit", "zigzag"]),
   ("Synthesis", ["synth", "texture", "fracture"]),
   ("Analysis and Utility", ["pvoc", "sndinfo", "housekeep", "submix", "mchshred"]),
   ("Other", [])]

/-- The first category of `CDP_CATEGORIES` whose program list holds
`prog` (the scan loop breaks at the first match). -/
def first_category (prog : String) : Option String :=
  (CDP_CATEGORIES.find? (fun kv => kv.2.contains prog)).map (fun kv => kv.1)

/-- Lexicographic comparison of character lists (Python string
ordering), structural for kernel evaluation. -/
def charListLe : List Char → List Char → Bool
  | [], _ => true
  | _ :: _, [] => false
  | a :: as, b :: bs => if a == b then charListLe as bs else decide (a < b)

/-- Python `a <= b` on strings. -/
def strLe (a b : String) : Bool :=
  charListLe a.data b.data

/-- Insert a string into an already sorted list (helper for the model
of Python `sorted`). -/
def insertSorted (x : String) : List String → List String
  | [] => [x]
  | y :: ys => if strLe x y then x :: y :: ys else y :: insertSorted x ys

/-- Model of Python `sorted` on a list of strings. -/
def sortStrings : List String → List String
  | [] => []
  | x :: xs => insertSorted x (sortStrings xs)

/-- The categorisation loop of `scan_cdp_programs`: each program goes
to the first matching category, the leftovers replace the `Other`
bucket when non-empty. -/
def categorize (progs : List String) : List (String × List String) :=
  let categorized := CDP_CATEGORIES.map
    (fun kv => (kv.1, progs.filter (fun p => first_category p == some kv.1)))
  let uncategorized := progs.filter (fun p => (first_category p).isNone)
  if uncategorized.isEmpty then categorized
  else categorized.map (fun kv => if kv.1 == "Other" then (kv.1, uncategorized) else kv)

/-- `scan_cdp_programs`: list executable, non-hidden, non-`.txt`
regular files, categorise them, and drop empty categories; filesystem
failures become a singleton `error` mapping. -/
def scan_cdp_programs (env : ScanEnv) : List (String × List String) :=
  if env.dirExists then
    match env.scanError with
    | some e => [("error", ["Failed to scan CDP directory: " ++ e])]
    | none =>
      let programs := (env.entries.filter
        (fun f => f.isFile && f.executable &&
          !(strStartsWith f.name ".") && !(strEndsWith f.name ".txt"))).map
        (fun f => f.name)
      (categorize (sortStrings programs)).filter (fun kv => !kv.2.isEmpty)
  else
    [("error", ["CDP directory not found: " ++ CDP_PATH])]

/-- The `list_cdp_programs` tool is a direct pass-through to the scan. -/
def list_cdp_programs (env : ScanEnv) : List (String × List String) :=
  scan_cdp_programs env

/-- File system model for `create_data_file`: a partial map from paths
to text contents. -/
structure FS where
  files : String → Option String

/-- `Path(p).write_text(content)` on the file system model. -/
def write_text (fs : FS) (p content : String) : FS :=
  ⟨fun q => if q == p then some content else fs.files q⟩

/-- The result dictionary of `create_data_file`. -/
structure CreateResult where
  status : String
  error : Option String := none
  filepath : Option String := none
  lines : Option Nat := none
  size : Option Nat := none
  preview : Option String := none
deriving DecidableEq, Repr

/-- `create_data_file`: resolve a relative path against the scratch
directory, write the content, and report line count, size and a
preview; returns the updated file system alongside the response. -/
def create_data_file (fs : FS) (filepath content : String) : FS × CreateResult :=
  let fp := if strStartsWith filepath "/" then filepath else TEMP_DIR ++ "/" ++ filepath
  let fs2 := write_text fs fp content
  if (fs2.files fp).isSome then
    (fs2,
     { status := "success",
       filepath := some fp,
       lines := some ((splitOnChar '\n' (strTrim content).data).length),
       size := some content.length,
       preview := some (if 200 < content.length then content.take 200 ++ "..." else content) })
  else
    (fs2, { status := "failed", error := some "File was not created" })

/-- The success condition exactly as the specification words it (for
comparison with `success_of` from the source): the file-existence
disjunct additionally requires that the last argument not look like a
flag. -/
def spec_success (command : List String) (exit_code : Int) (stdout stderr : String)
    (fileExists : String → Bool) : Bool :=
  (exit_code == 0) ||
  ((exit_code == 1) && !(stdout == "") && (stderr == "")) ||
  (decide (3 ≤ command.length) && !(strStartsWith (command.getLastD "") "-") &&
    fileExists (command.getLastD ""))

/-- Generic environment: every program exists, nothing on disk, the
subprocess completes with exit code 0 and some stdout. -/
def envW : Env :=
  { programExists := fun _ => true
    isAppleSilicon := false
    fileExists := fun _ => false
    run := fun _ => (0, "out", "") }

/-- Environment whose run exits 2 silently while a file named like a
flag exists on disk. -/
def env_flagfile : Env :=
  { programExists := fun _ => true
    isAppleSilicon := false
    fileExists := fun p => p == "-x"
    run := fun _ => (2, "", "") }

/-- Environment with no programs installed but every file path
existing. -/
def env_missing : Env :=
  { programExists := fun _ => false
    isAppleSilicon := false
    fileExists := fun _ => true
    run := fun _ => (0, "", "") }

/-- Environment with no programs installed and no files on disk. -/
def env_missing2 : Env :=
  { programExists := fun _ => false
    isAppleSilicon := false
    fileExists := fun _ => false
    run := fun _ => (0, "", "") }

/-- Environment whose run exits 1 with empty stdout and non-empty
stderr, with every file existing on disk. -/
def env_exit_one : Env :=
  { programExists := fun _ => true
    isAppleSilicon := false
    fileExists := fun _ => true
    run := fun _ => (1, "", "error text") }

/-- Usage-probe environment whose subprocess always times out. -/
def env_usage_timeout : UsageEnv :=
  { programExists := fun _ => true
    isAppleSilicon := false
    run := fun _ _ => ProcOutcome.timedOut }

/-- Usage-probe environment whose subprocess prints a usage banner. -/
def env_usage_text : UsageEnv :=
  { programExists := fun _ => true
    isAppleSilicon := false
    run := fun _ _ => ProcOutcome.completed 255 "USAGE: blur blur" "" }

/-- Scan environment with one categorised program, one `.txt` file and
one uncategorised program. -/
def env_scan_demo : ScanEnv :=
  { dirExists := true
    scanError := none
    entries := [{ name := "blur", isFile := true, executable := true },
                { name := "notes.txt", isFile := true, executable := true },
                { name := "mytool", isFile := true, executable := true }] }

/-- Unfolding of `execute_cdp`'s status field for a non-empty command
in terms of the observed run triple. -/
theorem execute_cdp_status_eq (env : Env) (command : List String) (e : Int) (o s : String)
    (hne : command ≠ []) (h : run_cdp_command env command = (e, o, s)) :
    (execute_cdp env command).status =
      if success_of command e o s env.fileExists then "success" else "failed" := by
  match command, hne with
  | a :: rest, _ =>
    unfold execute_cdp
    simp only [List.isEmpty_cons, Bool.false_eq_true, if_false, h]
    split
    · split
      · split <;> rfl
      · rfl
    · rfl

/-- The stderr field of `execute_cdp` echoes the run triple's stderr. -/
theorem execute_cdp_stderr_eq (env : Env) (command : List String) (hne : command ≠ []) :
    (execute_cdp env command).stderr = some (run_cdp_command env command).2.2 := by
  match command, hne with
  | a :: rest, _ =>
    unfold execute_cdp
    simp only [List.isEmpty_cons, Bool.false_eq_true, if_false]
    split
    · split
      · split <;> rfl
      · rfl
    · rfl

/-- Propositional reading of the `success_of` heuristic. -/
theorem success_of_iff (command : List String) (e : Int) (o s : String) (fe : String → Bool) :
    success_of command e o s fe = true ↔
      (e = 0 ∨ (e = 1 ∧ o ≠ "" ∧ s = "") ∨
        (2 < command.length ∧ fe (command.getLastD ""))) := by
  simp [success_of, Bool.or_eq_true, Bool.and_eq_true, beq_iff_eq,
    Bool.not_eq_true', beq_eq_false_iff_ne, decide_eq_true_eq, and_assoc, or_assoc]

/-- `success_of` is false when none of its three disjuncts holds. -/
theorem success_of_eq_false (command : List String) (e : Int) (o s : String)
    (fe : String → Bool)
    (h : ¬(e = 0 ∨ (e = 1 ∧ o ≠ "" ∧ s = "") ∨
      (2 < command.length ∧ fe (command.getLastD "")))) :
    success_of command e o s fe = false := by
  rcases hb : success_of command e o s fe
  · rfl
  · exact absurd ((success_of_iff command e o s fe).mp hb) h

/-- C1 (amended): for a non-empty command whose run yields the triple
(e, o, s), `execute_cdp` reports success exactly when e is zero, or e
is one with non-empty stdout and empty stderr, or the command has more
than two elements and its last argument exists on disk — with no
flag-shape restriction on the last argument. -/
theorem success_iff_heuristic (env : Env) (command : List String) (e : Int) (o s : String)
    (hne : command ≠ []) (h : run_cdp_command env command = (e, o, s)) :
    (execute_cdp env command).status = "success" ↔
      (e = 0 ∨ (e = 1 ∧ o ≠ "" ∧ s = "") ∨
        (2 < command.length ∧ env.fileExists (command.getLastD ""))) := by
  rw [execute_cdp_status_eq env command e o s hne h]
  constructor
  · intro hs
    apply (success_of_iff command e o s env.fileExists).mp
    by_contra hb
    rw [Bool.not_eq_true] at hb
    rw [hb] at hs
    exact absurd hs (by decide)
  · intro hp
    have hb := (success_of_iff command e o s env.fileExists).mpr hp
    simp [hb]

/-- Witness for C1's amended theorem at a concrete environment. -/
theorem success_iff_heuristic_witness :
    (execute_cdp envW ["a"]).status = "success" :=
  (success_iff_heuristic envW ["a"] 0 "out" "" (by decide) rfl).mpr (Or.inl rfl)

/-- C1 counterexample: with a three-element command whose last argument
starts with a dash yet exists on disk and a run that exits 2 silently,
the code reports success although the spec's success condition (which
excludes flag-shaped last arguments from the file-existence disjunct)
is false. -/
theorem flag_last_argument_counterexample :
    run_cdp_command env_flagfile ["a", "b", "-x"] = (2, "", "") ∧
    (execute_cdp env_flagfile ["a", "b", "-x"]).status = "success" ∧
    spec_success ["a", "b", "-x"] 2 "" "" env_flagfile.fileExists = false := by decide

/-- C2 (amended): for every command whose program is not installed,
`execute_cdp` raises nothing and always carries the not-found message
in stderr; it reports status failed unless the command has more than
two elements and its last argument exists on disk, in which case the
file-existence disjunct reports status success. -/
theorem missing_program_failed (env : Env) (program : String) (rest : List String)
    (hp : env.programExists program = false) :
    (execute_cdp env (program :: rest)).status =
      (if 2 < (program :: rest).length ∧ env.fileExists ((program :: rest).getLastD "")
       then "success" else "failed") ∧
    (execute_cdp env (program :: rest)).stderr = some (notfound_message program) := by
  have hrun : run_cdp_command env (program :: rest) =
      (-1, "", notfound_message program) := by
    simp [run_cdp_command, hp]
  constructor
  · rw [execute_cdp_status_eq env _ (-1) "" (notfound_message program) (by simp) hrun]
    by_cases hc : 2 < (program :: rest).length ∧
        env.fileExists ((program :: rest).getLastD "")
    · have hb : success_of (program :: rest) (-1) "" (notfound_message program)
          env.fileExists = true :=
        (success_of_iff (program :: rest) (-1) "" (notfound_message program)
          env.fileExists).mpr (Or.inr (Or.inr hc))
      rw [if_pos hc, hb, if_pos rfl]
    · have hb : success_of (program :: rest) (-1) "" (notfound_message program)
          env.fileExists = false := by
        apply success_of_eq_false
        rintro (h1 | ⟨h1, -, -⟩ | h3)
        · exact absurd h1 (by decide)
        · exact absurd h1 (by decide)
        · exact hc h3
      rw [if_neg hc, hb]
      rfl
  · rw [execute_cdp_stderr_eq env _ (by simp), hrun]

/-- Witness for C2's amended theorem at a concrete environment. -/
theorem missing_program_failed_witness :
    ((execute_cdp env_missing2 ["nope"]).status =
      (if 2 < List.length ["nope"] ∧ env_missing2.fileExists (["nope"].getLastD "")
       then "success" else "failed") ∧
    (execute_cdp env_missing2 ["nope"]).stderr = some (notfound_message "nope")) :=
  missing_program_failed env_missing2 "nope" [] rfl

/-- C2 counterexample: with a nonexistent program but a three-element
command whose last argument exists on disk, `execute_cdp` reports
status success rather than failed. -/
theorem missing_program_counterexample :
    env_missing.programExists "nope" = false ∧
    (execute_cdp env_missing ["nope", "a", "out.txt"]).status = "success" := by decide

/-- C3 (amended): for a non-empty command whose run yields exit code 1
with empty stdout and non-empty stderr, `execute_cdp` reports failed,
unless the command has more than two elements and its last argument
names a file that exists on disk, in which case it reports success. -/
theorem exit_one_stderr_status (env : Env) (command : List String) (s : String)
    (hne : command ≠ []) (h : run_cdp_command env command = (1, "", s)) (hs : s ≠ "") :
    (execute_cdp env command).status =
      if 2 < command.length ∧ env.fileExists (command.getLastD "")
      then "success" else "failed" := by
  rw [execute_cdp_status_eq env command 1 "" s hne h]
  by_cases hc : 2 < command.length ∧ env.fileExists (command.getLastD "")
  · have hb : success_of command 1 "" s env.fileExists = true :=
      (success_of_iff command 1 "" s env.fileExists).mpr (Or.inr (Or.inr hc))
    rw [if_pos hc, hb, if_pos rfl]
  · have hb : success_of command 1 "" s env.fileExists = false := by
      apply success_of_eq_false
      rintro (h1 | ⟨-, h2, -⟩ | h3)
      · exact absurd h1 (by decide)
      · exact h2 rfl
      · exact hc h3
    rw [if_neg hc, hb]
    rfl

/-- Witness for C3's amended theorem at a concrete environment. -/
theorem exit_one_stderr_status_witness :
    (execute_cdp env_exit_one ["a", "b", "c.txt"]).status =
      if 2 < List.length ["a", "b", "c.txt"] ∧
        env_exit_one.fileExists (["a", "b", "c.txt"].getLastD "")
      then "success" else "failed" :=
  exit_one_stderr_status env_exit_one ["a", "b", "c.txt"] "error text"
    (by decide) rfl (by decide)

/-- C3 counterexample: a two-element command with exit code 1, empty
stdout and non-empty stderr whose last argument exists on disk is still
reported failed, because the existence disjunct requires more than two
elements. -/
theorem short_command_exit_one_counterexample :
    run_cdp_command env_exit_one ["a", "b.txt"] = (1, "", "error text") ∧
    env_exit_one.fileExists "b.txt" = true ∧
    (execute_cdp env_exit_one ["a", "b.txt"]).status = "failed" := by decide

/-- C4 (confirmed): every non-empty command whose run yields exit code
0 is reported as success, whatever stdout and stderr hold. -/
theorem exit_code_zero_success (env : Env) (command : List String) (hne : command ≠ [])
    (h : (run_cdp_command env command).1 = 0) :
    (execute_cdp env command).status = "success" := by
  rw [execute_cdp_status_eq env command (run_cdp_command env command).1
    (run_cdp_command env command).2.1 (run_cdp_command env command).2.2 hne rfl]
  rw [h]
  have hs : success_of command 0 (run_cdp_command env command).2.1
      (run_cdp_command env command).2.2 env.fileExists = true := by
    simp [success_of]
  simp [hs]

/-- Witness for C4's theorem at a concrete environment. -/
theorem exit_code_zero_success_witness :
    (execute_cdp envW ["a"]).status = "success" :=
  exit_code_zero_success envW ["a"] (by decide) rfl

/-- C5 (confirmed): creating notes.txt with the two-line note content
reports 2 lines and a size equal to the content's length of 29
characters, which is also its exact byte length, and the file on disk
holds exactly the input content. -/
theorem create_data_file_roundtrip :
    (create_data_file ⟨fun _ => none⟩ "notes.txt" "0.0 60 0.5 100\n0.5 64 0.5 100").2.lines =
      some 2 ∧
    (create_data_file ⟨fun _ => none⟩ "notes.txt" "0.0 60 0.5 100\n0.5 64 0.5 100").2.size =
      some ("0.0 60 0.5 100\n0.5 64 0.5 100").length ∧
    ("0.0 60 0.5 100\n0.5 64 0.5 100").length = 29 ∧
    ("0.0 60 0.5 100\n0.5 64 0.5 100").utf8ByteSize = 29 ∧
    (create_data_file ⟨fun _ => none⟩ "notes.txt" "0.0 60 0.5 100\n0.5 64 0.5 100").1.files
      (TEMP_DIR ++ "/notes.txt") = some "0.0 60 0.5 100\n0.5 64 0.5 100" := by decide

/-- C6 (confirmed): the usage probe passes the fixed timeout 5 to the
subprocess; a timeout is reported with the dedicated message, and no
genuine completion, whatever its exit code and output, can produce that
same report. -/
theorem usage_probe_timeout_distinct (env : UsageEnv) (program : String)
    (subprogram : Option String) (hp : env.programExists program = true) :
    usage_timeout = 5 ∧
    (env.run (build_usage_cmd env.isAppleSilicon program subprogram) usage_timeout =
        ProcOutcome.timedOut →
      run_cdp_for_usage env program subprogram = (-1, "", timeout_message)) ∧
    (∀ code out err,
      env.run (build_usage_cmd env.isAppleSilicon program subprogram) usage_timeout =
          ProcOutcome.completed code out err →
      run_cdp_for_usage env program subprogram ≠ (-1, "", timeout_message)) := by
  refine ⟨rfl, ?_, ?_⟩
  · intro h
    simp [run_cdp_for_usage, hp, h]
  · intro code out err h heq
    simp only [run_cdp_for_usage, hp, if_true, h] at heq
    simp only [Prod.mk.injEq] at heq
    obtain ⟨-, hmid, herr⟩ := heq
    by_cases ho : (out == "") = true
    · rw [if_pos ho] at hmid
      rw [hmid] at herr
      exact absurd herr (by decide)
    · rw [if_neg ho] at hmid
      exact ho (by rw [hmid]; decide)

/-- Witness for C6's theorem at a concrete environment. -/
theorem usage_probe_timeout_distinct_witness :
    run_cdp_for_usage env_usage_timeout "blur" none = (-1, "", timeout_message) :=
  (usage_probe_timeout_distinct env_usage_timeout "blur" none rfl).2.1 rfl

/-- C7 (confirmed): the get_cdp_usage response carries has_usage = true
exactly when the captured usage text contains "USAGE:" or "Usage:" as
a substring, and carries no has_usage key otherwise. -/
theorem has_usage_key_iff (env : UsageEnv) (program : String) (subprogram : Option String) :
    (get_cdp_usage env program subprogram).has_usage =
      (if strContains (get_cdp_usage env program subprogram).usage_text "USAGE:" ||
          strContains (get_cdp_usage env program subprogram).usage_text "Usage:"
       then some true else none) := by
  rcases hR : run_cdp_for_usage env program subprogram with ⟨e, os⟩
  rcases os with ⟨o, s⟩
  unfold get_cdp_usage
  rw [hR]
  simp only [apply_ite UsageResponse.usage_text, apply_ite UsageResponse.has_usage, ite_self]
  by_cases hos : (o == "" && s == "") = true
  · rw [Bool.and_eq_true, beq_iff_eq, beq_iff_eq] at hos
    obtain ⟨ho, hs⟩ := hos
    subst ho
    subst hs
    simp [strContains, charListContainsSub, charListBeginsWith]
  · simp only [hos, Bool.false_eq_true, if_false]

/-- Witness for C7's theorem at a concrete environment. -/
theorem has_usage_key_iff_witness :
    (get_cdp_usage env_usage_text "blur" none).has_usage =
      (if strContains (get_cdp_usage env_usage_text "blur" none).usage_text "USAGE:" ||
          strContains (get_cdp_usage env_usage_text "blur" none).usage_text "Usage:"
       then some true else none) :=
  has_usage_key_iff env_usage_text "blur" none

/-- C8 (confirmed): no entry of the mapping returned by
list_cdp_programs carries an empty program list, in any state of the
installation directory. -/
theorem list_programs_no_empty_category (env : ScanEnv) (kv : String × List String)
    (h : kv ∈ list_cdp_programs env) : kv.2 ≠ [] := by
  unfold list_cdp_programs scan_cdp_programs at h
  by_cases hd : env.dirExists
  · rw [if_pos hd] at h
    match hse : env.scanError with
    | some e =>
      rw [hse] at h
      rw [List.mem_singleton] at h
      subst h
      simp
    | none =>
      rw [hse] at h
      intro hnil
      have h2 := (List.mem_filter.mp h).2
      rw [hnil] at h2
      simp at h2
  · rw [if_neg hd] at h
    rw [List.mem_singleton] at h
    subst h
    simp

/-- Witness for C8's theorem at a concrete directory state. -/
theorem list_programs_no_empty_category_witness :
    ("Other", ["mytool"]).2 ≠ ([] : List String) :=
  list_programs_no_empty_category env_scan_demo ("Other", ["mytool"]) (by decide)

/-- C9 (confirmed): the result of `execute_cdp` on a non-empty command
carries output_file, set to the last argument, exactly when the command
has more than two elements whose last argument does not start with a
dash and contains a dot; it carries output_exists exactly when that
file moreover exists on disk, and output_exists is never false. -/
theorem execute_output_keys (env : Env) (command : List String) (hne : command ≠ []) :
    ((execute_cdp env command).output_file =
      if 2 < command.length ∧ ¬(strStartsWith (command.getLastD "") "-") ∧
          strHasChar (command.getLastD "") '.'
      then some (command.getLastD "") else none) ∧
    ((execute_cdp env command).output_exists =
      if (2 < command.length ∧ ¬(strStartsWith (command.getLastD "") "-") ∧
          strHasChar (command.getLastD "") '.') ∧ env.fileExists (command.getLastD "")
      then some true else none) ∧
    (execute_cdp env command).output_exists ≠ some false := by
  match command, hne with
  | a :: rest, _ =>
    by_cases hlen : 2 < (a :: rest).length
    · cases hsw : strStartsWith ((a :: rest).getLastD "") "-" <;>
      cases hdot : strHasChar ((a :: rest).getLastD "") '.' <;>
      cases hex : env.fileExists ((a :: rest).getLastD "") <;>
        [skip; skip; skip; skip; skip; skip; skip; skip] <;>
      · simp only [List.getLastD_eq_getLast?] at hsw hdot hex
        simp only [List.length_cons] at hlen
        simp [execute_cdp, hlen, hsw, hdot, hex]
    · simp only [List.length_cons] at hlen
      simp [execute_cdp, hlen]

/-- Witness for C9's theorem at a concrete environment. -/
theorem execute_output_keys_witness :
    (execute_cdp envW ["a", "b", "out.txt"]).output_exists ≠ some false :=
  (execute_output_keys envW ["a", "b", "out.txt"] (by decide)).2.2

/-- C10 (confirmed): on the empty command array `execute_cdp` returns
status failed with an error message and no exit_code, command, stdout
or stderr keys, without consulting the subprocess environment. -/
theorem empty_command_early_return (env : Env) :
    (execute_cdp env []).status = "failed" ∧
    (execute_cdp env []).error = some "Empty command array provided" ∧
    (execute_cdp env []).exit_code = none ∧
    (execute_cdp env []).command = none ∧
    (execute_cdp env []).stdout = none ∧
    (execute_cdp env []).stderr = none ∧
    ∀ env2 : Env, execute_cdp env [] = execute_cdp env2 [] :=
  ⟨rfl, rfl, rfl, rfl, rfl, rfl, fun _ => rfl⟩

/-- Witness for C10's theorem at a concrete environment. -/
theorem empty_command_early_return_witness :
    (execute_cdp envW []).status = "failed" :=
  (empty_command_early_return envW).1
